import Mathlib

/-!
Verification of the Radiology-Assistant report pipeline (src/app.py).

Strings are modelled as `List Char` (`Str`); Python's `in` operator on
strings is substring containment (`containsSub`), `str.upper`/`str.lower`
are char-wise ASCII case mappings (Python semantics on the ASCII texts the
program manipulates), and `str.strip()` removes leading/trailing
whitespace.  Each Python function used by the claims is translated to an
executable Lean definition keeping the source's name where possible.
-/

namespace RadAssist

abbrev Str := List Char

/-- Coerce a Lean string literal to the `List Char` representation. -/
def str (s : String) : Str := s.data

/-- Python whitespace for `str.strip()` (ASCII part). -/
def isPySpace (c : Char) : Bool :=
  c = ' ' || c = '\t' || c = '\n' || c = '\r' || c = '\x0b' || c = '\x0c'

/-- Python `str.upper()` (char-wise, ASCII). -/
def strUpper (s : Str) : Str := s.map Char.toUpper

/-- Python `str.lower()` (char-wise, ASCII). -/
def strLower (s : Str) : Str := s.map Char.toLower

/-- Python `str.strip()`: drop leading and trailing whitespace. -/
def pyStrip (s : Str) : Str :=
  ((s.dropWhile isPySpace).reverse.dropWhile isPySpace).reverse

/-- Python's `needle in hay` on strings: substring containment. -/
def containsSub : Str → Str → Bool
  | n, [] => n.isEmpty
  | n, c :: t => n.isPrefixOf (c :: t) || containsSub n t

theorem containsSub_iff (n h : Str) : containsSub n h = true ↔ n <:+: h := by
  induction h with
  | nil =>
    simp [containsSub, List.isEmpty_iff]
  | cons c t ih =>
    simp only [containsSub, Bool.or_eq_true, List.isPrefixOf_iff_prefix, ih,
      List.infix_cons_iff]

theorem containsSub_trans {a b c : Str} (h₁ : containsSub a b = true)
    (h₂ : containsSub b c = true) : containsSub a c = true := by
  rw [containsSub_iff] at *
  exact h₁.trans h₂

theorem containsSub_map {a b : Str} (f : Char → Char) (h : containsSub a b = true) :
    containsSub (a.map f) (b.map f) = true := by
  rw [containsSub_iff] at *
  exact h.map f

theorem containsSub_append_right {a b c : Str} (h : containsSub a c = true) :
    containsSub a (b ++ c) = true := by
  rw [containsSub_iff] at *
  obtain ⟨s, t, rfl⟩ := h
  exact ⟨b ++ s, t, by simp⟩

/-- Decimal rendering of a natural number (Python `len(...)` in f-strings). -/
def natStr (n : Nat) : Str := (Nat.repr n).data

/-! ## Quality Auditor (`QualityAssurance.audit_report`, src/app.py lines 221-320) -/

/-- `quality_metrics["required_sections"]`. -/
def requiredSections : List Str := [str "FINDINGS", str "IMPRESSION"]

/-- `quality_metrics["ambiguous_terms"]`. -/
def ambiguousTerms : List Str :=
  [str "possible", str "likely", str "suggestive of", str "cannot exclude",
   str "may represent", str "probably"]

/-- `quality_metrics["forbidden_terms"]`. -/
def forbiddenTerms : List Str := [str "normal", str "unremarkable"]

/-- ASCII letter, i.e. what `[A-Z]` matches under `re.IGNORECASE`. -/
def isAsciiLetter (c : Char) : Bool :=
  ('A' ≤ c && c ≤ 'Z') || ('a' ≤ c && c ≤ 'z')

/--
The lookahead `(?=\n\n[A-Z]+:|$)` of the findings regex, tested at the
suffix `s` of the report text: either `\n\n` followed by one or more
letters (`re.IGNORECASE` makes `[A-Z]` match both cases) and a colon, or
the `$` anchor (end of string, or just before a final newline).
-/
def findingsBoundary : Str → Bool
  | [] => true
  | ['\n'] => true
  | '\n' :: '\n' :: rest =>
    let run := rest.takeWhile isAsciiLetter
    !run.isEmpty &&
      (match rest.drop run.length with
       | ':' :: _ => true
       | _ => false)
  | _ => false

/-- The lazy group `(.*?)`: the shortest prefix ending at a boundary. -/
def lazyCapture : Str → Str
  | [] => []
  | c :: t => if findingsBoundary (c :: t) then [] else c :: lazyCapture t

/-- Does `FINDINGS:` match (case-insensitively) at the head of `s`? -/
def matchFindingsAt (s : Str) : Bool :=
  strUpper (s.take 9) == str "FINDINGS:"

/--
`re.search(r'FINDINGS:(.*?)(?=\n\n[A-Z]+:|$)', report_text, re.DOTALL | re.IGNORECASE)`:
the capture group of the leftmost match, if any.
-/
def extractFindings : Str → Option Str
  | [] => none
  | c :: t =>
    if matchFindingsAt (c :: t) then some (lazyCapture ((c :: t).drop 9))
    else extractFindings t

/-- `findings_text = findings_match.group(1).strip()`. -/
def findingsInfo (t : Str) : Option Str := (extractFindings t).map pyStrip

/-- The required sections absent from the report (case-insensitive test). -/
def requiredMissing (t : Str) : List Str :=
  requiredSections.filter (fun s => !containsSub s (strUpper t))

/-- Distinct ambiguous terms occurring in the findings text. -/
def ambiguousHits (ft : Str) : List Str :=
  ambiguousTerms.filter (fun w => containsSub w (strLower ft))

/-- Forbidden vague terms occurring in a findings text shorter than 100 chars. -/
def forbiddenHits (ft : Str) : List Str :=
  forbiddenTerms.filter (fun w => containsSub w (strLower ft) && decide (ft.length < 100))

/-- Deduction for the findings-length check (brief: 10, verbose: 5). -/
def lengthPenalty (ft : Str) : Int :=
  if ft.length < 50 then 10 else if ft.length > 2000 then 5 else 0

/-- Digit, as matched by `\d` (ASCII). -/
def isDigitC (c : Char) : Bool := '0' ≤ c && c ≤ '9'

/-- Consume `\d+\.?\d*` at the front of `s`; `none` if no leading digit. -/
def afterNumber : Str → Option Str
  | s =>
    let rest := s.dropWhile isDigitC
    if rest.length == s.length then none
    else
      match rest with
      | '.' :: t => some (t.dropWhile isDigitC)
      | _ => some rest

/-- Does `(\d+\.?\d*)\s*<unit>` match at the head of `s`? -/
def matchUnitAt (unit : Str) (s : Str) : Bool :=
  match afterNumber s with
  | none => false
  | some r => unit.isPrefixOf (r.dropWhile isPySpace)

/-- Does `(\d+\.?\d*)\s*x\s*(\d+\.?\d*)` match at the head of `s`? -/
def matchDimsAt (s : Str) : Bool :=
  match afterNumber s with
  | none => false
  | some r =>
    match r.dropWhile isPySpace with
    | 'x' :: r2 =>
      (match r2.dropWhile isPySpace with
       | d :: _ => isDigitC d
       | [] => false)
    | _ => false

/-- `re.search`: does `p` match at some position of the text? -/
def anySuffix (p : Str → Bool) : Str → Bool
  | [] => p []
  | c :: t => p (c :: t) || anySuffix p t

/--
`units_used` of the measurement-consistency check, in the declaration
order of `measurement_patterns` (the source collects them in a Python
set, whose iteration order is unspecified; only membership matters).
-/
def unitsUsed (t : Str) : List Str :=
  (if anySuffix (matchUnitAt (str "cm")) t then [str "cm"] else [])
  ++ (if anySuffix (matchUnitAt (str "mm")) t then [str "mm"] else [])
  ++ (if anySuffix matchDimsAt t then [str "dimensions"] else [])

/-- `", ".join(...)`. -/
def joinComma : List Str → Str
  | [] => []
  | [s] => s
  | s :: t => s ++ str ", " ++ joinComma t

/-- The score accumulated by `audit_report` before the final clamp. -/
def rawScore (t : Str) : Int :=
  100 - 20 * (requiredMissing t).length
  - (match findingsInfo t with
     | none => 0
     | some ft =>
       lengthPenalty ft + 3 * (ambiguousHits ft).length + 5 * (forbiddenHits ft).length)
  + (if containsSub (str "COMPARISON") (strUpper t) then 10 else 0)
  + (if containsSub (str "DIFFERENTIAL") (strUpper t) then 5 else 0)

structure AuditResult where
  score : Int
  warnings : List Str
  suggestions : List Str
  missing_sections : List Str
  strengths : List Str
  grade : Str
  deriving DecidableEq, Repr

/-- `audit_results["score"] = max(0, min(100, audit_results["score"]))`. -/
def auditScore (t : Str) : Int := max 0 (min 100 (rawScore t))

/-- The warning list accumulated by `audit_report`, in emission order:
missing-section warnings, findings-length warning, vague-term warnings. -/
def auditWarnings (t : Str) : List Str :=
  (requiredMissing t).map (fun s => str "Missing required section: " ++ s)
  ++ (match findingsInfo t with
      | none => []
      | some ft =>
        (if ft.length < 50 then
           [str "Findings section is brief (" ++ natStr ft.length ++ str " chars)"]
         else if ft.length > 2000 then
           [str "Findings section is verbose (" ++ natStr ft.length ++ str " chars)"]
         else [])
        ++ (forbiddenHits ft).map
            (fun w => str "Avoid vague term: '" ++ w ++ str "' without supporting details"))

/-- `QualityAssurance.audit_report` (src/app.py lines 232-320). -/
def audit_report (t : Str) : AuditResult :=
  let score := auditScore t
  { score := score
    warnings := auditWarnings t
    suggestions :=
      (match findingsInfo t with
       | none => []
       | some ft =>
         (if ft.length < 50 then [str "Consider adding more descriptive details"]
          else if ft.length > 2000 then [str "Consider being more concise"]
          else [])
         ++ (ambiguousHits ft).map
             (fun w => str "Consider clarifying ambiguous term: '" ++ w ++ str "'"))
      ++ (if (unitsUsed t).length > 1 then
            [str "Mixed measurement units detected: " ++ joinComma (unitsUsed t)]
          else [])
    missing_sections := requiredMissing t
    strengths :=
      (match findingsInfo t with
       | none => []
       | some ft =>
         if ft.length < 50 then [] else if ft.length > 2000 then []
         else [str "Findings section has appropriate length"])
      ++ (if containsSub (str "COMPARISON") (strUpper t) then
            [str "Includes comparison with prior studies"] else [])
      ++ (if containsSub (str "DIFFERENTIAL") (strUpper t) then
            [str "Includes differential diagnosis"] else [])
    grade :=
      if score ≥ 90 then str "Excellent"
      else if score ≥ 75 then str "Good"
      else if score ≥ 60 then str "Fair"
      else str "Needs Improvement" }

/-! ## Report Assembler (Generate-button handler of `main`, src/app.py lines 1248-1282) -/

/-- `st.session_state.patient_info` (absent fields are empty strings,
matching the falsiness test `any(patient_info.values())`). -/
structure PatientInfo where
  name : Str
  id : Str
  age : Str
  sex : Str
  history : Str
  deriving DecidableEq, Repr

/-- `st.session_state.technique_info`; `none` models a missing dict key. -/
structure TechniqueInfo where
  modality : Option Str
  contrast : Option Str
  sequences : Option Str
  deriving DecidableEq, Repr

/-- `patient_info and any(patient_info.values())`. -/
def patientAny (p : PatientInfo) : Bool :=
  !p.name.isEmpty || !p.id.isEmpty || !p.age.isEmpty || !p.sex.isEmpty || !p.history.isEmpty

/-- The `formatted_report` accumulated before the `IMPRESSION` check
(src/app.py lines 1250-1274): patient block, technique block, draft. -/
def generate_report_base (p : PatientInfo) (t : TechniqueInfo) (draft : Str) : Str :=
  (if patientAny p then
     str "PATIENT INFORMATION:\n"
     ++ (if !p.name.isEmpty then str "Name: " ++ p.name ++ str "\n" else [])
     ++ (if !p.id.isEmpty then str "ID: " ++ p.id ++ str "\n" else [])
     ++ (if !p.age.isEmpty || !p.sex.isEmpty then
           str "Age/Sex: " ++ p.age ++ str "/" ++ p.sex ++ str "\n" else [])
     ++ (if !p.history.isEmpty then str "Clinical History: " ++ p.history ++ str "\n" else [])
   else [])
  ++ str "\nTECHNIQUE:\n"
  ++ str "Modality: " ++ t.modality.getD (str "Not specified") ++ str "\n"
  ++ str "Contrast: " ++ t.contrast.getD (str "Without contrast") ++ str "\n"
  ++ (match t.sequences with
      | some s => if !s.isEmpty then s ++ str "\n" else []
      | none => [])
  ++ (if !draft.isEmpty then str "\n" ++ draft else [])

/-- The default block appended when no `IMPRESSION` is found. -/
def defaultImpression : Str :=
  str "\n\nIMPRESSION:\nFindings as described above. Clinical correlation recommended."

/-- The full Generate-button assembly (src/app.py lines 1248-1280):
`if "IMPRESSION:" not in formatted_report and "IMPRESSION" not in formatted_report:`
append `defaultImpression`.  Note both membership tests are case-sensitive. -/
def generate_report (p : PatientInfo) (t : TechniqueInfo) (draft : Str) : Str :=
  let base := generate_report_base p t draft
  if !containsSub (str "IMPRESSION:") base && !containsSub (str "IMPRESSION") base then
    base ++ defaultImpression
  else base

/-! ## Template System (`TemplateSystem`, src/app.py lines 751-830) -/

/-- A stored template record (`self.templates[name]`). -/
structure Template where
  content : Str
  type : Str
  created_by : Str
  created_date : Str
  used_count : Nat
  deriving DecidableEq, Repr

/-- `self.templates`: a Python dict, i.e. an insertion-ordered association
list with unique keys. -/
abbrev TemplateStore := List (Str × Template)

/-- Dict lookup `self.templates[name]` / `name in self.templates`. -/
def storeLookup : TemplateStore → Str → Option Template
  | [], _ => none
  | (k, v) :: t, n => if k == n then some v else storeLookup t n

/-- Dict assignment `self.templates[name] = v`: replace the value of an
existing key in place, otherwise append the new binding. -/
def storeInsert : TemplateStore → Str → Template → TemplateStore
  | [], n, v => [(n, v)]
  | (k, w) :: t, n, v =>
    if k == n then (k, v) :: t else (k, w) :: storeInsert t n v

/-- `TemplateSystem.add_template` (src/app.py lines 775-784); `created_by`
and `created_date` come from the session / clock and are passed in. -/
def add_template (store : TemplateStore) (name content : Str)
    (template_type : Str) (user date : Str) : TemplateStore :=
  storeInsert store name
    { content := content, type := template_type, created_by := user,
      created_date := date, used_count := 0 }

/-- The fixed `heading_map` of `get_template_heading`. -/
def headingMap (template_type : Str) : Option Str :=
  if template_type == str "technique" then some (str "TECHNIQUE")
  else if template_type == str "findings" then some (str "FINDINGS")
  else if template_type == str "impression" then some (str "IMPRESSION")
  else if template_type == str "clinical" then some (str "CLINICAL HISTORY")
  else if template_type == str "differential" then some (str "DIFFERENTIAL DIAGNOSIS")
  else if template_type == str "comparison" then some (str "COMPARISON")
  else none

/-- `TemplateSystem.get_template_heading` (src/app.py lines 786-803). -/
def get_template_heading (store : TemplateStore) (template_name : Str) : Str :=
  match storeLookup store template_name with
  | none => strUpper template_name
  | some tpl => (headingMap tpl.type).getD (strUpper template_name)

/-- The canonical-heading table as the spec states it: the fixed
section-type lookup, and for an unknown type the template's own name
upper-cased (spec §4.2). -/
def specHeading (template_type template_name : Str) : Str :=
  if template_type == str "technique" then str "TECHNIQUE"
  else if template_type == str "findings" then str "FINDINGS"
  else if template_type == str "impression" then str "IMPRESSION"
  else if template_type == str "clinical" then str "CLINICAL HISTORY"
  else if template_type == str "differential" then str "DIFFERENTIAL DIAGNOSIS"
  else if template_type == str "comparison" then str "COMPARISON"
  else strUpper template_name

/-- `TemplateSystem.apply_template` (src/app.py lines 805-822): returns the
updated store (the in-place `used_count` increment) and the new draft text. -/
def apply_template (store : TemplateStore) (template_name : Str)
    (current_text : Str) : TemplateStore × Str :=
  match storeLookup store template_name with
  | none => (store, current_text)
  | some tpl =>
    let heading := get_template_heading store template_name
    let store' := storeInsert store template_name
      { tpl with used_count := tpl.used_count + 1 }
    let formatted := str "\n\n" ++ strUpper heading ++ str ":\n" ++ tpl.content
    if !current_text.isEmpty then (store', current_text ++ formatted)
    else (store', formatted)

/-! ## Differential diagnosis (`generate_differential_diagnosis`,
src/app.py lines 833-873, and `DIFFERENTIAL_DATABASE`, lines 44-70) -/

structure DiffEntry where
  diagnosis : Str
  confidence : Str
  features : Str
  modality : Str
  urgency : Str
  deriving DecidableEq, Repr

def brain_lesion_enhancing : List DiffEntry :=
  [⟨str "Meningioma", str "High", str "Dural-based, homogeneous enhancement", str "MRI", str "Non-urgent"⟩,
   ⟨str "Metastasis", str "High", str "Multiple, at gray-white junction", str "MRI", str "Urgent"⟩,
   ⟨str "Glioblastoma", str "Medium", str "Irregular rim enhancement", str "MRI", str "Urgent"⟩]

def white_matter : List DiffEntry :=
  [⟨str "Microvascular ischemia", str "High", str "Periventricular, punctate", str "MRI", str "Non-urgent"⟩,
   ⟨str "Multiple Sclerosis", str "Medium", str "Ovoid, perivenular", str "MRI", str "Non-urgent"⟩]

def stroke : List DiffEntry :=
  [⟨str "Ischemic infarct", str "High", str "Vascular territory, DWI bright", str "MRI/CT", str "Urgent"⟩,
   ⟨str "Venous infarct", str "Medium", str "Hemorrhagic, non-arterial", str "MRI/CT", str "Urgent"⟩]

def spinal_lesion : List DiffEntry :=
  [⟨str "Disc herniation", str "High", str "Disc material extrusion", str "MRI", str "Non-urgent"⟩,
   ⟨str "Metastasis", str "Medium", str "Vertebral body destruction", str "MRI", str "Urgent"⟩]

def lung_nodule : List DiffEntry :=
  [⟨str "Primary lung cancer", str "Medium", str "Spiculated, >2cm", str "CT", str "Urgent"⟩,
   ⟨str "Metastasis", str "Medium", str "Multiple, peripheral", str "CT", str "Urgent"⟩]

def liver_lesion : List DiffEntry :=
  [⟨str "Hemangioma", str "High", str "Peripheral nodular enhancement", str "MRI/CT", str "Non-urgent"⟩,
   ⟨str "Metastasis", str "Medium", str "Multiple, ring enhancement", str "MRI/CT", str "Urgent"⟩]

/-- `any(word in text_lower for word in ws)`. -/
def anyKeyword (ws : List Str) (tl : Str) : Bool :=
  ws.any (fun w => containsSub w tl)

/-- The `results` list after all trigger groups and the modality filter,
before deduplication (src/app.py lines 838-862). -/
def diffResultsPre (text : Str) (modality_filter : Option Str) : List DiffEntry :=
  let tl := strLower text
  let results :=
    (if anyKeyword [str "enhanc", str "mass", str "tumor", str "neoplasm", str "gadolinium"] tl
     then brain_lesion_enhancing else [])
    ++ (if anyKeyword [str "white matter", str "flair", str "hyperintensity", str "msa",
          str "demyelinating"] tl then white_matter else [])
    ++ (if anyKeyword [str "stroke", str "infarct", str "ischemi", str "mca", str "aca",
          str "pca"] tl then stroke else [])
    ++ (if anyKeyword [str "spinal", str "cord", str "disc", str "vertebral", str "canal",
          str "foraminal"] tl then spinal_lesion else [])
    ++ (if anyKeyword [str "lung", str "pulmonary", str "nodule", str "chest", str "thorax",
          str "pleural"] tl then lung_nodule else [])
    ++ (if anyKeyword [str "liver", str "hepatic", str "lesion", str "hepato", str "portal"] tl
        then liver_lesion else [])
  match modality_filter with
  | some m =>
    if !m.isEmpty && m != str "All" then results.filter (fun r => r.modality == m)
    else results
  | none => results

/-- The duplicate-removal loop keyed by the `diagnosis` field
(src/app.py lines 864-872); `seen` is the accumulated key set. -/
def dedupByDiagnosis : List DiffEntry → List Str → List DiffEntry
  | [], _ => []
  | r :: t, seen =>
    if seen.contains r.diagnosis then dedupByDiagnosis t seen
    else r :: dedupByDiagnosis t (r.diagnosis :: seen)

/-- `generate_differential_diagnosis` (src/app.py lines 833-873). -/
def generate_differential_diagnosis (text : Str) (modality_filter : Option Str) :
    List DiffEntry :=
  if text.isEmpty then []
  else (dedupByDiagnosis (diffResultsPre text modality_filter) []).take 6

/-! ## Document Serializer (`create_word_document`, report-section loop,
src/app.py lines 905-920) -/

/-- A structured-document element emitted for one report line. -/
inductive DocElem where
  | parBreak : DocElem
  | heading : Str → DocElem
  | par : Str → DocElem
  deriving DecidableEq, Repr

/-- Python `str.split('\n')`. -/
def splitNl : Str → List Str
  | [] => [[]]
  | '\n' :: t => [] :: splitNl t
  | c :: t =>
    match splitNl t with
    | [] => [[c]]
    | h :: r => (c :: h) :: r

/-- Python `str.isupper()`: at least one cased character, and no
lower-case character (ASCII model). -/
def pyIsUpper (s : Str) : Bool :=
  s.any Char.isAlpha && s.all (fun c => !c.isLower)

/-- `line_stripped.endswith(':') and line_stripped[:-1].replace(' ', '').isupper()`
(`.replace(' ', '')` modelled by filtering out spaces). -/
def isHeadingLine (ls : Str) : Bool :=
  ls.getLast? == some ':' && pyIsUpper (ls.dropLast.filter (fun c => c ≠ ' '))

/-- Classification of one line of the report text
(src/app.py lines 908-920). -/
def classifyLine (line : Str) : DocElem :=
  let ls := pyStrip line
  if ls.isEmpty then DocElem.parBreak
  else if isHeadingLine ls then DocElem.heading ls.dropLast
  else DocElem.par ls

/-- The element run produced by the report-section loop of
`create_word_document` for the given report text. -/
def wordDocBody (report_text : Str) : List DocElem :=
  (splitNl report_text).map classifyLine

/-- Does an entry pass the (optional) modality filter of
`generate_differential_diagnosis`?  With no filter, an empty filter or
the filter `"All"`, every entry passes; otherwise the entry's `modality`
must equal the filter. -/
def matchesFilter (mf : Option Str) (r : DiffEntry) : Bool :=
  match mf with
  | none => true
  | some m => if !m.isEmpty && m != str "All" then r.modality == m else true

/-! ## Concrete audit examples -/

/-- A report text with `FINDINGS:` and `IMPRESSION:` headings, a
200-character findings body with no ambiguous or vague terms, and no
`COMPARISON`/`DIFFERENTIAL` section. -/
def qaExampleText : Str :=
  str "FINDINGS:\n" ++ List.replicate 200 'x' ++ str "\n\nIMPRESSION:\nStable exam."

/-- The same report with a `COMPARISON:` section added. -/
def qaExampleTextComparison : Str :=
  qaExampleText ++ str "\n\nCOMPARISON:\nNone available."

/-! ## Critical-findings matcher (spec §4.1) -/

/-- Severity of a critical-finding pattern (spec §3, Pattern Entry). -/
inductive Severity where
  | Medium : Severity
  | High : Severity
  | Critical : Severity
  deriving DecidableEq, Repr

/-- Modelled from the spec: a critical-finding Pattern Entry
`{keyword, severity, recommended_action}` (spec §3); the function
`findCriticalFindings` and its Pattern Database are absent from src/. -/
structure CriticalPattern where
  keyword : Str
  severity : Severity
  action : Str
  deriving DecidableEq, Repr

/-- A result row `{category, finding, severity, action}` (spec §4.1). -/
structure CriticalFinding where
  category : Str
  finding : Str
  severity : Severity
  action : Str
  deriving DecidableEq, Repr

/-- Modelled from the spec: the critical-findings Pattern Database, a
static table of categories in declaration order.  Only the two Brain
entries named in spec §8 ("acute infarct" → High, "hemorrhage" →
Critical, in that order) are specified, so the modelled table holds
exactly those. -/
def CRITICAL_FINDINGS_DB : List (Str × List CriticalPattern) :=
  [(str "Brain",
    [⟨str "acute infarct", Severity.High, str "Immediate clinical notification"⟩,
     ⟨str "hemorrhage", Severity.Critical, str "Immediate clinical notification"⟩])]

/-- Modelled from the spec (§4.1): `findCriticalFindings` lower-cases the
input, tests each pattern keyword by plain substring containment, and
emits one row per matching entry in category-then-pattern declaration
order; empty/missing text yields `[]`. -/
def findCriticalFindings (text : Str) : List CriticalFinding :=
  if text.isEmpty then []
  else
    let tl := strLower text
    CRITICAL_FINDINGS_DB.flatMap (fun cat =>
      (cat.2.filter (fun p => containsSub p.keyword tl)).map
        (fun p => ⟨cat.1, p.keyword, p.severity, p.action⟩))

/-! ## Helper lemmas -/

theorem storeLookup_insert_self (s : TemplateStore) (n : Str) (v : Template) :
    storeLookup (storeInsert s n v) n = some v := by
  induction s with
  | nil => simp [storeInsert, storeLookup]
  | cons hd tl ih =>
    obtain ⟨k, w⟩ := hd
    by_cases h : k == n
    · simp [storeInsert, storeLookup, h]
    · simp only [storeInsert, storeLookup, h, Bool.false_eq_true, if_false, if_neg]
      exact ih

theorem toNat_ofNat_valid {n : Nat} (h : n.isValidChar) : (Char.ofNat n).toNat = n := by
  rw [Char.ofNat, dif_pos h]
  rfl

theorem toUpper_toUpper (c : Char) : c.toUpper.toUpper = c.toUpper := by
  unfold Char.toUpper
  by_cases h : c.toNat ≥ 97 ∧ c.toNat ≤ 122
  · rw [if_pos h]
    have hv : (c.toNat - 32).isValidChar := Or.inl (by omega)
    have ht : (Char.ofNat (c.toNat - 32)).toNat = c.toNat - 32 := toNat_ofNat_valid hv
    rw [if_neg]
    rw [ht]
    omega
  · rw [if_neg h, if_neg h]

theorem strUpper_strUpper (s : Str) : strUpper (strUpper s) = strUpper s := by
  unfold strUpper
  rw [List.map_map]
  exact List.map_congr_left (fun c _ => toUpper_toUpper c)

/-- The heading actually interpolated by `apply_template`
(`heading.upper()` over `get_template_heading`) equals the spec's table. -/
theorem heading_eq_specHeading (template_type template_name : Str) :
    strUpper ((headingMap template_type).getD (strUpper template_name)) =
      specHeading template_type template_name := by
  unfold headingMap specHeading
  split_ifs <;> simp only [Option.getD_some, Option.getD_none] <;>
    first
      | decide
      | exact strUpper_strUpper template_name

/-- Full characterization of `apply_template` on a known template name. -/
theorem apply_template_found (store : TemplateStore) (name text : Str) (tpl : Template)
    (h : storeLookup store name = some tpl) :
    apply_template store name text =
      (storeInsert store name { tpl with used_count := tpl.used_count + 1 },
       text ++ str "\n\n" ++ specHeading tpl.type name ++ str ":\n" ++ tpl.content) := by
  unfold apply_template get_template_heading
  rw [h]
  simp only [heading_eq_specHeading]
  cases text with
  | nil => simp
  | cons c t => simp [List.append_assoc]

theorem audit_missing_sections_eq (t : Str) :
    (audit_report t).missing_sections = requiredMissing t := rfl

theorem audit_warnings_eq (t : Str) : (audit_report t).warnings = auditWarnings t := rfl

theorem brief_warning_ne (x : Str) :
    str "Findings section is brief (" ++ x ++ str " chars)" ≠
      str "Missing required section: IMPRESSION" := by
  intro he
  rw [show str "Findings section is brief (" =
      'F' :: str "indings section is brief (" from by decide,
    List.cons_append, List.cons_append,
    show str "Missing required section: IMPRESSION" =
      'M' :: str "issing required section: IMPRESSION" from by decide] at he
  injection he with hc _
  exact absurd hc (by decide)

theorem verbose_warning_ne (x : Str) :
    str "Findings section is verbose (" ++ x ++ str " chars)" ≠
      str "Missing required section: IMPRESSION" := by
  intro he
  rw [show str "Findings section is verbose (" =
      'F' :: str "indings section is verbose (" from by decide,
    List.cons_append, List.cons_append,
    show str "Missing required section: IMPRESSION" =
      'M' :: str "issing required section: IMPRESSION" from by decide] at he
  injection he with hc _
  exact absurd hc (by decide)

theorem vague_warning_ne (x : Str) :
    str "Avoid vague term: '" ++ x ++ str "' without supporting details" ≠
      str "Missing required section: IMPRESSION" := by
  intro he
  rw [show str "Avoid vague term: '" = 'A' :: str "void vague term: '" from by decide,
    List.cons_append, List.cons_append,
    show str "Missing required section: IMPRESSION" =
      'M' :: str "issing required section: IMPRESSION" from by decide] at he
  injection he with hc _
  exact absurd hc (by decide)

theorem dedup_sublist (l : List DiffEntry) (seen : List Str) :
    (dedupByDiagnosis l seen).Sublist l := by
  induction l generalizing seen with
  | nil => simp [dedupByDiagnosis]
  | cons x t ih =>
    cases h : seen.contains x.diagnosis with
    | true =>
      simp only [dedupByDiagnosis, h, if_true]
      exact (ih seen).cons x
    | false =>
      simp only [dedupByDiagnosis, h, Bool.false_eq_true, if_false]
      exact (ih (x.diagnosis :: seen)).cons₂ x

theorem dedup_mem_find (l : List DiffEntry) (seen : List Str) (r : DiffEntry)
    (hr : r ∈ dedupByDiagnosis l seen) :
    seen.contains r.diagnosis = false ∧
    l.find? (fun x => x.diagnosis == r.diagnosis) = some r := by
  induction l generalizing seen with
  | nil => simp [dedupByDiagnosis] at hr
  | cons x t ih =>
    cases h : seen.contains x.diagnosis with
    | true =>
      rw [dedupByDiagnosis, h, if_pos rfl] at hr
      obtain ⟨h1, h2⟩ := ih seen hr
      refine ⟨h1, ?_⟩
      have hne : (x.diagnosis == r.diagnosis) = false := by
        rw [beq_eq_false_iff_ne]
        intro he
        rw [← he, h] at h1
        exact absurd h1 (by decide)
      rw [List.find?_cons_of_neg _ (by rw [hne]; decide), h2]
    | false =>
      rw [dedupByDiagnosis, h] at hr
      simp only [Bool.false_eq_true, if_false, List.mem_cons] at hr
      rcases hr with rfl | hr'
      · exact ⟨h, by rw [List.find?_cons_of_pos _ (by simp)]⟩
      · obtain ⟨h1, h2⟩ := ih (x.diagnosis :: seen) hr'
        rw [List.contains_cons, Bool.or_eq_false_iff] at h1
        refine ⟨h1.2, ?_⟩
        have hne : (x.diagnosis == r.diagnosis) = false := by
          rw [beq_eq_false_iff_ne]
          intro he
          rw [beq_eq_false_iff_ne] at h1
          exact h1.1 he.symm
        rw [List.find?_cons_of_neg _ (by rw [hne]; decide), h2]

theorem dedup_diag_nodup (l : List DiffEntry) (seen : List Str) :
    ((dedupByDiagnosis l seen).map (fun r => r.diagnosis)).Nodup := by
  induction l generalizing seen with
  | nil => simp [dedupByDiagnosis]
  | cons x t ih =>
    cases h : seen.contains x.diagnosis with
    | true =>
      simp only [dedupByDiagnosis, h, if_true]
      exact ih seen
    | false =>
      simp only [dedupByDiagnosis, h, Bool.false_eq_true, if_false, List.map_cons,
        List.nodup_cons]
      refine ⟨?_, ih (x.diagnosis :: seen)⟩
      intro hmem
      rcases List.mem_map.mp hmem with ⟨r, hr, heq⟩
      have h1 := (dedup_mem_find t (x.diagnosis :: seen) r hr).1
      rw [heq, List.contains_cons] at h1
      simp at h1

theorem pre_filter_ok (text : Str) (mf : Option Str) (r : DiffEntry)
    (hr : r ∈ diffResultsPre text mf) : matchesFilter mf r = true := by
  cases mf with
  | none => rfl
  | some m =>
    cases hc : (!m.isEmpty && m != str "All") with
    | false => simp [matchesFilter, hc]
    | true =>
      simp only [matchesFilter, hc, if_true]
      rw [diffResultsPre] at hr
      simp only [hc, if_true] at hr
      exact (List.mem_filter.mp hr).2

/-! ## Claim theorems -/

/-- C1: for every input report text, the Quality Auditor's score is an
integer in `[0, 100]` (clamped after all deductions and bonuses), and the
grade follows the thresholds `≥90 Excellent, ≥75 Good, ≥60 Fair,
else Needs Improvement` applied to the final score. -/
theorem C1_audit_score_bounds_and_grade (t : Str) :
    0 ≤ (audit_report t).score ∧ (audit_report t).score ≤ 100 ∧
    (audit_report t).grade =
      (if (audit_report t).score ≥ 90 then str "Excellent"
       else if (audit_report t).score ≥ 75 then str "Good"
       else if (audit_report t).score ≥ 60 then str "Fair"
       else str "Needs Improvement") := by
  refine ⟨?_, ?_, ?_⟩
  · show 0 ≤ auditScore t
    exact le_max_left 0 _
  · show auditScore t ≤ 100
    exact max_le (by norm_num) (min_le_left _ _)
  · rfl

/-- C2, counterexample: with empty patient info, technique
`{modality: CT, contrast: With contrast}` and the draft
`"impression: clear."`, the accumulated text contains `IMPRESSION`
case-insensitively, yet the Generate handler still appends the default
`IMPRESSION:` block (its membership tests are case-sensitive), so the
claimed "nothing is appended" is false. -/
theorem C2_counterexample :
    containsSub (str "IMPRESSION")
      (strUpper (generate_report_base ⟨[], [], [], [], []⟩
        ⟨some (str "CT"), some (str "With contrast"), none⟩ (str "impression: clear."))) = true ∧
    generate_report ⟨[], [], [], [], []⟩
        ⟨some (str "CT"), some (str "With contrast"), none⟩ (str "impression: clear.") =
      generate_report_base ⟨[], [], [], [], []⟩
        ⟨some (str "CT"), some (str "With contrast"), none⟩ (str "impression: clear.")
        ++ defaultImpression ∧
    generate_report ⟨[], [], [], [], []⟩
        ⟨some (str "CT"), some (str "With contrast"), none⟩ (str "impression: clear.") ≠
      generate_report_base ⟨[], [], [], [], []⟩
        ⟨some (str "CT"), some (str "With contrast"), none⟩ (str "impression: clear.") := by
  refine ⟨by decide, by decide, by decide⟩

/-- C2, amended: the default `IMPRESSION:` block is appended exactly when
the accumulated text contains no case-sensitive substring `"IMPRESSION"`
(the handler tests `"IMPRESSION:" not in text and "IMPRESSION" not in
text`, both case-sensitive, and the second test subsumes the first). -/
theorem C2_amended_case_sensitive_append (p : PatientInfo) (t : TechniqueInfo) (d : Str) :
    generate_report p t d =
      (if containsSub (str "IMPRESSION") (generate_report_base p t d) then
         generate_report_base p t d
       else generate_report_base p t d ++ defaultImpression) := by
  unfold generate_report
  cases hB : containsSub (str "IMPRESSION") (generate_report_base p t d) with
  | true => simp [hB]
  | false =>
    have hA : containsSub (str "IMPRESSION:") (generate_report_base p t d) = false := by
      cases hA : containsSub (str "IMPRESSION:") (generate_report_base p t d) with
      | false => rfl
      | true =>
        have : containsSub (str "IMPRESSION") (generate_report_base p t d) = true :=
          containsSub_trans (by decide) hA
        rw [this] at hB
        exact absurd hB (by simp)
    simp [hA, hB]

/-- C3 (round trip): for every patient info, technique info and draft,
the Assembler's output always contains `IMPRESSION` case-insensitively
(by construction of the auto-append step), so auditing it never yields a
missing-`IMPRESSION` section or warning. -/
theorem C3_assembled_report_passes_impression_check
    (p : PatientInfo) (t : TechniqueInfo) (d : Str) :
    containsSub (str "IMPRESSION") (strUpper (generate_report p t d)) = true ∧
    str "IMPRESSION" ∉ (audit_report (generate_report p t d)).missing_sections ∧
    str "Missing required section: IMPRESSION" ∉
      (audit_report (generate_report p t d)).warnings := by
  have hplain : containsSub (str "IMPRESSION") (generate_report p t d) = true := by
    unfold generate_report
    cases hB : containsSub (str "IMPRESSION") (generate_report_base p t d) with
    | true => simp [hB]
    | false =>
      have hA : containsSub (str "IMPRESSION:") (generate_report_base p t d) = false := by
        cases hA : containsSub (str "IMPRESSION:") (generate_report_base p t d) with
        | false => rfl
        | true =>
          have := containsSub_trans (a := str "IMPRESSION") (by decide) hA
          rw [this] at hB
          exact absurd hB (by simp)
      simp only [hA, hB, Bool.not_false, Bool.and_self, if_true]
      exact containsSub_append_right (by decide)
  have hUp : containsSub (str "IMPRESSION") (strUpper (generate_report p t d)) = true := by
    have h := containsSub_map Char.toUpper hplain
    rwa [show List.map Char.toUpper (str "IMPRESSION") = str "IMPRESSION" from by decide] at h
  refine ⟨hUp, ?_, ?_⟩
  · rw [audit_missing_sections_eq]
    intro hmem
    have hpred := (List.mem_filter.mp hmem).2
    rw [hUp] at hpred
    exact absurd hpred (by decide)
  · rw [audit_warnings_eq]
    intro hmem
    unfold auditWarnings at hmem
    rcases List.mem_append.mp hmem with hA | hB
    · rcases List.mem_map.mp hA with ⟨s, hs, heq⟩
      have hsI : s = str "IMPRESSION" :=
        List.append_cancel_left (heq.trans (by decide))
      rw [hsI] at hs
      have hpred := (List.mem_filter.mp hs).2
      rw [hUp] at hpred
      exact absurd hpred (by decide)
    · cases hfi : findingsInfo (generate_report p t d) with
      | none =>
        rw [hfi] at hB
        simp at hB
      | some ft =>
        rw [hfi] at hB
        simp only [] at hB
        rcases List.mem_append.mp hB with hLen | hForb
        · by_cases h50 : ft.length < 50
          · rw [if_pos h50] at hLen
            simp only [List.mem_singleton] at hLen
            exact brief_warning_ne (natStr ft.length) hLen.symm
          · rw [if_neg h50] at hLen
            by_cases h2000 : ft.length > 2000
            · rw [if_pos h2000] at hLen
              simp only [List.mem_singleton] at hLen
              exact verbose_warning_ne (natStr ft.length) hLen.symm
            · rw [if_neg h2000] at hLen
              simp at hLen
        · rcases List.mem_map.mp hForb with ⟨w, _, heq⟩
          exact vague_warning_ne w heq

/-- C4: applying an unknown template name returns the draft unchanged,
signals no error, and leaves the store (usage counts included)
unmodified. -/
theorem C4_apply_unknown_template (store : TemplateStore) (name text : Str)
    (h : storeLookup store name = none) :
    apply_template store name text = (store, text) := by
  unfold apply_template
  rw [h]

/-- C4, witness: concrete run at an empty store. -/
theorem C4_apply_unknown_template_witness :
    storeLookup [] (str "chest ct routine") = none ∧
    apply_template [] (str "chest ct routine") (str "FINDINGS:\nClear lungs.") =
      ([], str "FINDINGS:\nClear lungs.") :=
  ⟨rfl, C4_apply_unknown_template [] (str "chest ct routine") (str "FINDINGS:\nClear lungs.") rfl⟩

/-- C5: applying a known template increments exactly that template's
`used_count` by 1 (a second call makes it +2), and returns
`currentDraftText + "\n\n" + heading + ":\n" + content` where the heading
comes from the fixed section-type table (unknown type: the template's own
name upper-cased); when the draft is empty the result is just the
template block (the same formula with an empty prefix). -/
theorem C5_apply_known_template (store : TemplateStore) (name text text2 : Str)
    (tpl : Template) (h : storeLookup store name = some tpl) :
    storeLookup (apply_template store name text).1 name =
      some { tpl with used_count := tpl.used_count + 1 } ∧
    (apply_template store name text).2 =
      text ++ str "\n\n" ++ specHeading tpl.type name ++ str ":\n" ++ tpl.content ∧
    storeLookup (apply_template (apply_template store name text).1 name text2).1 name =
      some { tpl with used_count := tpl.used_count + 2 } := by
  have h1 := apply_template_found store name text tpl h
  have hl1 : storeLookup (apply_template store name text).1 name =
      some { tpl with used_count := tpl.used_count + 1 } := by
    rw [h1]
    exact storeLookup_insert_self store name _
  refine ⟨hl1, by rw [h1], ?_⟩
  have h2 := apply_template_found (apply_template store name text).1 name text2
    { tpl with used_count := tpl.used_count + 1 } hl1
  rw [h2]
  exact storeLookup_insert_self (apply_template store name text).1 name _

/-- C5, witness: a concrete store holding one template of unknown section
type `"misc"` with `used_count = 3`; one application yields 4, two yield
5, and the returned text appends the block under the name-derived
heading. -/
theorem C5_apply_known_template_witness :
    storeLookup [(str "cta head", ⟨str "CTA of the head performed.", str "misc",
        str "alice", str "2025-01-01", 3⟩)] (str "cta head") =
      some ⟨str "CTA of the head performed.", str "misc", str "alice", str "2025-01-01", 3⟩ ∧
    (storeLookup
        (apply_template [(str "cta head", ⟨str "CTA of the head performed.", str "misc",
          str "alice", str "2025-01-01", 3⟩)] (str "cta head") (str "Draft text.")).1
        (str "cta head") =
      some ⟨str "CTA of the head performed.", str "misc", str "alice", str "2025-01-01", 4⟩ ∧
    (apply_template [(str "cta head", ⟨str "CTA of the head performed.", str "misc",
        str "alice", str "2025-01-01", 3⟩)] (str "cta head") (str "Draft text.")).2 =
      str "Draft text." ++ str "\n\n" ++ specHeading (str "misc") (str "cta head")
        ++ str ":\n" ++ str "CTA of the head performed." ∧
    storeLookup
        (apply_template
          (apply_template [(str "cta head", ⟨str "CTA of the head performed.", str "misc",
            str "alice", str "2025-01-01", 3⟩)] (str "cta head") (str "Draft text.")).1
          (str "cta head") []).1 (str "cta head") =
      some ⟨str "CTA of the head performed.", str "misc", str "alice", str "2025-01-01", 5⟩) :=
  ⟨by decide,
   C5_apply_known_template
     [(str "cta head", ⟨str "CTA of the head performed.", str "misc",
       str "alice", str "2025-01-01", 3⟩)]
     (str "cta head") (str "Draft text.") []
     ⟨str "CTA of the head performed.", str "misc", str "alice", str "2025-01-01", 3⟩
     (by decide)⟩

set_option maxRecDepth 40000 in
/-- C6, counterexample: with a `COMPARISON` section present the pre-clamp
score is `100 + 10 = 110`, not the `105` stated by the claim (the final
clamped score is still 100). -/
theorem C6_counterexample :
    rawScore qaExampleTextComparison = 110 ∧
    rawScore qaExampleTextComparison ≠ 105 ∧
    (audit_report qaExampleTextComparison).score = 100 := by
  refine ⟨by decide, by decide, by decide⟩

/-- C6, amended: a report containing both required sections, whose
findings body is 200 characters with no ambiguous terms, scores exactly
100 with no `COMPARISON`/`DIFFERENTIAL` bonus, and still exactly 100
(110 clamped to 100) when a `COMPARISON` section is additionally
present.  (Forbidden vague terms cannot deduct here: their check
requires a findings length below 100.) -/
theorem C6_amended_perfect_report (t ft : Str)
    (hF : containsSub (str "FINDINGS") (strUpper t) = true)
    (hI : containsSub (str "IMPRESSION") (strUpper t) = true)
    (hfi : findingsInfo t = some ft)
    (hlen : ft.length = 200)
    (hamb : ambiguousHits ft = [])
    (hD : containsSub (str "DIFFERENTIAL") (strUpper t) = false) :
    (containsSub (str "COMPARISON") (strUpper t) = false →
       rawScore t = 100 ∧ (audit_report t).score = 100) ∧
    (containsSub (str "COMPARISON") (strUpper t) = true →
       rawScore t = 110 ∧ (audit_report t).score = 100) := by
  have hmiss : requiredMissing t = [] := by
    simp [requiredMissing, requiredSections, List.filter, hF, hI]
  have hforb : forbiddenHits ft = [] := by
    simp [forbiddenHits, forbiddenTerms, List.filter, hlen]
  have hlp : lengthPenalty ft = 0 := by simp [lengthPenalty, hlen]
  constructor
  · intro hC
    have hraw : rawScore t = 100 := by
      simp [rawScore, hfi, hmiss, hamb, hforb, hlp, hC, hD]
    refine ⟨hraw, ?_⟩
    show auditScore t = 100
    rw [auditScore, hraw]
    decide
  · intro hC
    have hraw : rawScore t = 110 := by
      simp [rawScore, hfi, hmiss, hamb, hforb, hlp, hC, hD]
    refine ⟨hraw, ?_⟩
    show auditScore t = 100
    rw [auditScore, hraw]
    decide

set_option maxRecDepth 40000 in
/-- C6, witness: the two concrete example reports. -/
theorem C6_amended_perfect_report_witness :
    (findingsInfo qaExampleText = some (List.replicate 200 'x') ∧
     rawScore qaExampleText = 100 ∧ (audit_report qaExampleText).score = 100) ∧
    (rawScore qaExampleTextComparison = 110 ∧
     (audit_report qaExampleTextComparison).score = 100) :=
  ⟨⟨by decide,
    (C6_amended_perfect_report qaExampleText (List.replicate 200 'x')
      (by decide) (by decide) (by decide) (by decide) (by decide) (by decide)).1
      (by decide)⟩,
   (C6_amended_perfect_report qaExampleTextComparison (List.replicate 200 'x')
      (by decide) (by decide) (by decide) (by decide) (by decide) (by decide)).2
      (by decide)⟩

/-- C7: `generate_differential_diagnosis` returns at most 6 entries with
pairwise-distinct diagnoses; the output is a sublist of the pre-dedup
results (so ordering follows group declaration order) and keeps, for each
diagnosis, the first pre-dedup entry carrying it; the modality filter is
applied before deduplication, so every returned entry passes it; and
`"enhancing mass noted"` with no filter yields a non-empty result. -/
theorem C7_differentials_dedup_capped :
    (∀ text mf,
      (generate_differential_diagnosis text mf).length ≤ 6 ∧
      ((generate_differential_diagnosis text mf).map (fun r => r.diagnosis)).Nodup ∧
      (generate_differential_diagnosis text mf).Sublist (diffResultsPre text mf) ∧
      (generate_differential_diagnosis text mf).all (matchesFilter mf) = true ∧
      ∀ r ∈ generate_differential_diagnosis text mf,
        (diffResultsPre text mf).find? (fun x => x.diagnosis == r.diagnosis) = some r) ∧
    generate_differential_diagnosis (str "enhancing mass noted") none ≠ [] := by
  refine ⟨?_, by decide⟩
  intro text mf
  cases ht : text.isEmpty with
  | true =>
    rw [generate_differential_diagnosis, ht, if_pos rfl]
    exact ⟨by simp, by simp, List.nil_sublist _, by simp, by simp⟩
  | false =>
    have hgen : generate_differential_diagnosis text mf =
        (dedupByDiagnosis (diffResultsPre text mf) []).take 6 := by
      rw [generate_differential_diagnosis, ht]
      simp
    rw [hgen]
    have hchain : ((dedupByDiagnosis (diffResultsPre text mf) []).take 6).Sublist
        (diffResultsPre text mf) :=
      (List.take_sublist 6 _).trans (dedup_sublist _ [])
    refine ⟨List.length_take_le 6 _, ?_, hchain, ?_, ?_⟩
    · exact ((dedup_diag_nodup (diffResultsPre text mf) []).sublist
        ((List.take_sublist 6 _).map _))
    · rw [List.all_eq_true]
      intro r hr
      exact pre_filter_ok text mf r (hchain.subset hr)
    · intro r hr
      exact (dedup_mem_find (diffResultsPre text mf) [] r (List.mem_of_mem_take hr)).2

/-- C7, witness: the concrete call from the spec, with and without a
modality filter. -/
theorem C7_differentials_dedup_capped_witness :
    (generate_differential_diagnosis (str "enhancing mass noted") (some (str "MRI"))).length ≤ 6 ∧
    (diffResultsPre (str "enhancing mass noted") (some (str "MRI"))).find?
        (fun x => x.diagnosis == str "Meningioma") =
      some ⟨str "Meningioma", str "High", str "Dural-based, homogeneous enhancement",
        str "MRI", str "Non-urgent"⟩ ∧
    generate_differential_diagnosis (str "enhancing mass noted") none ≠ [] :=
  ⟨(C7_differentials_dedup_capped.1 (str "enhancing mass noted") (some (str "MRI"))).1,
   (C7_differentials_dedup_capped.1 (str "enhancing mass noted") (some (str "MRI"))).2.2.2.2
     ⟨str "Meningioma", str "High", str "Dural-based, homogeneous enhancement",
       str "MRI", str "Non-urgent"⟩ (by decide),
   C7_differentials_dedup_capped.2⟩

/-- C8: on `"Patient has acute infarct and hemorrhage"` the matcher
returns exactly the "acute infarct" (High) and "hemorrhage" (Critical)
rows in Brain-category declaration order; in general the input is
lower-cased and each keyword is matched by a plain substring test, and
empty text yields the empty list. -/
theorem C8_find_critical_findings :
    findCriticalFindings (str "Patient has acute infarct and hemorrhage") =
      [⟨str "Brain", str "acute infarct", Severity.High, str "Immediate clinical notification"⟩,
       ⟨str "Brain", str "hemorrhage", Severity.Critical, str "Immediate clinical notification"⟩] ∧
    findCriticalFindings [] = [] ∧
    (∀ t e, e ∈ findCriticalFindings t → containsSub e.finding (strLower t) = true) := by
  refine ⟨by decide, rfl, ?_⟩
  intro t e he
  rw [findCriticalFindings] at he
  cases ht : t.isEmpty with
  | true =>
    rw [ht, if_pos rfl] at he
    simp at he
  | false =>
    rw [ht] at he
    simp only [Bool.false_eq_true, if_false] at he
    rcases List.mem_flatMap.mp he with ⟨cat, _, hmem⟩
    rcases List.mem_map.mp hmem with ⟨p, hp, heq⟩
    have hc := (List.mem_filter.mp hp).2
    rw [← heq]
    exact hc

/-- C8, witness: the "acute infarct" row of the concrete call satisfies
the substring-match soundness property. -/
theorem C8_find_critical_findings_witness :
    (⟨str "Brain", str "acute infarct", Severity.High,
        str "Immediate clinical notification"⟩ : CriticalFinding) ∈
      findCriticalFindings (str "Patient has acute infarct and hemorrhage") ∧
    containsSub (str "acute infarct")
      (strLower (str "Patient has acute infarct and hemorrhage")) = true :=
  ⟨by decide,
   C8_find_critical_findings.2.2 (str "Patient has acute infarct and hemorrhage")
     ⟨str "Brain", str "acute infarct", Severity.High,
       str "Immediate clinical notification"⟩ (by decide)⟩

/-- C9, counterexample: the serializer emits non-heading lines with
surrounding whitespace stripped, not verbatim: the line `"  hello"` is
emitted as the paragraph `"hello"`. -/
theorem C9_counterexample :
    wordDocBody (str "  hello") = [DocElem.par (str "hello")] ∧
    DocElem.par (str "hello") ≠ DocElem.par (str "  hello") :=
  ⟨by decide, by decide⟩

/-- C9, amended: the serializer walks the lines of the report text; a
line that is blank after stripping emits a paragraph break; a line whose
stripped form is `<pre> ++ ":"` with `<pre>`, spaces removed, passing
Python's `isupper` test (at least one cased character, none lower-case)
emits a level-1 heading whose text is the stripped line minus the
trailing colon; every other line is emitted as a plain paragraph of the
stripped (not verbatim) line.  No input raises an error (the walk is a
total function). -/
theorem C9_amended_line_classification (text line pre : Str) :
    wordDocBody text = (splitNl text).map classifyLine ∧
    ((pyStrip line).isEmpty = true → classifyLine line = DocElem.parBreak) ∧
    (pyStrip line = pre ++ [':'] → pyIsUpper (pre.filter (fun c => c ≠ ' ')) = true →
       classifyLine line = DocElem.heading pre) ∧
    ((pyStrip line).isEmpty = false → isHeadingLine (pyStrip line) = false →
       classifyLine line = DocElem.par (pyStrip line)) := by
  refine ⟨rfl, ?_, ?_, ?_⟩
  · intro h
    simp [classifyLine, h]
  · intro hpre hup
    have hne : (pyStrip line).isEmpty = false := by
      rw [hpre]
      simp
    have hhl : isHeadingLine (pyStrip line) = true := by
      rw [isHeadingLine, hpre, List.getLast?_concat, List.dropLast_concat]
      simp only [decide_not] at hup
      simp [hup]
    simp only [classifyLine, hne, Bool.false_eq_true, if_false, hhl, if_true]
    rw [hpre, List.dropLast_concat]
  · intro h1 h2
    simp [classifyLine, h1, h2]

/-- C9, witness: a blank line, a padded heading line, and a digits-only
pseudo-heading line. -/
theorem C9_amended_line_classification_witness :
    classifyLine (str "   ") = DocElem.parBreak ∧
    classifyLine (str " FINDINGS: ") = DocElem.heading (str "FINDINGS") ∧
    classifyLine (str "123:") = DocElem.par (str "123:") :=
  ⟨(C9_amended_line_classification [] (str "   ") []).2.1 (by decide),
   (C9_amended_line_classification [] (str " FINDINGS: ") (str "FINDINGS")).2.2.1
     (by decide) (by decide),
   (C9_amended_line_classification [] (str "123:") []).2.2.2 (by decide) (by decide)⟩

/-- C10 (implicit): re-adding a template under an existing name replaces
the whole stored record; in particular `used_count` is reset to 0 and the
owner and creation date are overwritten. -/
theorem C10_add_template_overwrites (store : TemplateStore)
    (name content template_type user date : Str) (tpl : Template)
    (_h : storeLookup store name = some tpl) :
    storeLookup (add_template store name content template_type user date) name =
      some ⟨content, template_type, user, date, 0⟩ := by
  unfold add_template
  exact storeLookup_insert_self store name _

/-- C10, witness: overwriting a template whose `used_count` is 5 resets it
to 0 and replaces owner and date. -/
theorem C10_add_template_overwrites_witness :
    storeLookup [(str "ct brain", ⟨str "old text", str "findings", str "alice", str "2024-01-01", 5⟩)]
        (str "ct brain") = some ⟨str "old text", str "findings", str "alice", str "2024-01-01", 5⟩ ∧
    storeLookup
        (add_template
          [(str "ct brain", ⟨str "old text", str "findings", str "alice", str "2024-01-01", 5⟩)]
          (str "ct brain") (str "new text") (str "impression") (str "bob") (str "2025-06-30"))
        (str "ct brain") =
      some ⟨str "new text", str "impression", str "bob", str "2025-06-30", 0⟩ :=
  ⟨by decide,
   C10_add_template_overwrites
     [(str "ct brain", ⟨str "old text", str "findings", str "alice", str "2024-01-01", 5⟩)]
     (str "ct brain") (str "new text") (str "impression") (str "bob") (str "2025-06-30")
     ⟨str "old text", str "findings", str "alice", str "2024-01-01", 5⟩ (by decide)⟩

end RadAssist
